import Mathlib

/-!
Verification of the threshold-based analysis and health-scoring core of the
A1forBolt system analysis tool (src/src/analysis/performance.py,
src/src/analysis/security.py, src/src/analysis/resources.py).

The Python dictionaries are embedded as Lean structures whose fields mirror
the dict keys; `dict.get(k, default)` becomes `Option.getD`.  Percentages and
sizes are modelled as rationals, scores as integers, statuses as the literal
strings the source uses ("normal", "warning", "critical", "healthy",
"secure").
-/

namespace SystemAnalysis

/-- A warning/critical threshold pair, one entry of the analyzers'
`self.thresholds` tables. -/
structure Threshold where
  warning : ℚ
  critical : ℚ
deriving DecidableEq

/-- `PerformanceAnalyzer._load_thresholds` default table (performance.py
lines 29-42): keys cpu, memory, disk. -/
structure PerfThresholds where
  cpu : Threshold
  memory : Threshold
  disk : Threshold
deriving DecidableEq

/-- Default performance thresholds hardcoded in
`PerformanceAnalyzer._load_thresholds` (performance.py lines 29-42). -/
def default_performance_thresholds : PerfThresholds :=
  { cpu := { warning := 80, critical := 90 }
  , memory := { warning := 75, critical := 85 }
  , disk := { warning := 80, critical := 90 } }

/-- `ResourceAnalyzer._load_thresholds` default table (resources.py lines
30-43): keys disk, memory, swap. -/
structure ResourceThresholds where
  disk : Threshold
  memory : Threshold
  swap : Threshold
deriving DecidableEq

/-- Default resource thresholds hardcoded in
`ResourceAnalyzer._load_thresholds` (resources.py lines 30-43). -/
def default_resource_thresholds : ResourceThresholds :=
  { disk := { warning := 80, critical := 90 }
  , memory := { warning := 75, critical := 85 }
  , swap := { warning := 70, critical := 80 } }

/-! ## Metric sub-records (the values of the snapshot dict) -/

/-- The `cpu` sub-record; `cpu_metrics.get('usage', 0.0)`. -/
structure CpuMetrics where
  usage : Option ℚ := none
deriving DecidableEq

/-- The `memory` sub-record (performance.py lines 99-101 / resources.py
lines 102-104). -/
structure MemoryMetrics where
  usage : Option ℚ := none
  available : Option ℚ := none
  total : Option ℚ := none
deriving DecidableEq

/-- The `disk` sub-record (performance.py lines 119-121). -/
structure DiskMetrics where
  usage : Option ℚ := none
  free : Option ℚ := none
  total : Option ℚ := none
deriving DecidableEq

/-- The `swap` sub-record (resources.py lines 122-124). -/
structure SwapMetrics where
  usage : Option ℚ := none
  free : Option ℚ := none
  total : Option ℚ := none
deriving DecidableEq

/-- The `network` sub-record (performance.py lines 139-142). -/
structure NetworkMetrics where
  bytes_sent : Option ℚ := none
  bytes_recv : Option ℚ := none
  packets_sent : Option ℚ := none
  packets_recv : Option ℚ := none
deriving DecidableEq

/-- One entry of the `processes` list. -/
structure ProcessMetrics where
  pid : Option Nat := none
  name : Option String := none
  cpu_percent : Option ℚ := none
  memory_percent : Option ℚ := none
  status : Option String := none
deriving DecidableEq

/-- One entry of the `largest_files` list inside `file_system`. -/
structure FileEntry where
  size : Option ℚ := none
deriving DecidableEq

/-- The `file_system` sub-record (resources.py lines 142-144). -/
structure FileSystemMetrics where
  total_files : Option ℚ := none
  total_dirs : Option ℚ := none
  largest_files : Option (List FileEntry) := none
deriving DecidableEq

/-- One entry of the `ports` list; `port.get('port')`, `port.get('state',
'unknown')` (security.py lines 95, 100). -/
structure PortEntry where
  port : Option Nat := none
  state : Option String := none
deriving DecidableEq

/-- One entry of the `services` list (security.py lines 128, 132). -/
structure ServiceEntry where
  name : Option String := none
  status : Option String := none
deriving DecidableEq

/-- The `updates` sub-record (security.py lines 144-145). -/
structure UpdatesMetrics where
  last_update : Option String := none
  updates_available : Option Int := none
deriving DecidableEq

/-- The `firewall` sub-record (security.py lines 159-160). -/
structure FirewallMetrics where
  enabled : Option Bool := none
  rules : Option (List String) := none
deriving DecidableEq

/-- The `antivirus` sub-record (security.py lines 174-175). -/
structure AntivirusMetrics where
  enabled : Option Bool := none
  last_scan : Option String := none
deriving DecidableEq

/-- One entry of the `ssl` certificate list; `cert.get('expired', False)`,
`cert.get('expiring_soon', False)` (security.py lines 197, 199). -/
structure SslCert where
  expired : Option Bool := none
  expiring_soon : Option Bool := none
deriving DecidableEq

/-- The metrics snapshot the analyzers consume: a dict whose keys may all be
absent (`metrics.get(key, default)` in each `analyze`). -/
structure MetricsSnapshot where
  cpu : Option CpuMetrics := none
  memory : Option MemoryMetrics := none
  disk : Option DiskMetrics := none
  swap : Option SwapMetrics := none
  network : Option NetworkMetrics := none
  processes : Option (List ProcessMetrics) := none
  file_system : Option FileSystemMetrics := none
  ports : Option (List PortEntry) := none
  services : Option (List ServiceEntry) := none
  updates : Option UpdatesMetrics := none
  firewall : Option FirewallMetrics := none
  antivirus : Option AntivirusMetrics := none
  ssl : Option (List SslCert) := none
deriving DecidableEq

/-- Replace every absent top-level snapshot key by the explicit empty
sub-record/list that `metrics.get(key, default)` supplies, leaving present
keys unchanged. -/
def fillDefaults (m : MetricsSnapshot) : MetricsSnapshot :=
  { cpu := some (m.cpu.getD {})
  , memory := some (m.memory.getD {})
  , disk := some (m.disk.getD {})
  , swap := some (m.swap.getD {})
  , network := some (m.network.getD {})
  , processes := some (m.processes.getD [])
  , file_system := some (m.file_system.getD {})
  , ports := some (m.ports.getD [])
  , services := some (m.services.getD [])
  , updates := some (m.updates.getD {})
  , firewall := some (m.firewall.getD {})
  , antivirus := some (m.antivirus.getD {})
  , ssl := some (m.ssl.getD []) }

/-! ## The health aggregator -/

/-- The view of one category result that the aggregation loop reads:
the dict key, `result['status']` and `result['issues']`. -/
abbrev CatStatus := String × String × List String

/-- The overall health/security-score record: `{'status': ..., 'score': ...,
'issues': ...}` (performance.py lines 191-195, security.py lines 213-217). -/
structure Health where
  status : String
  score : Int
  issues : List String
deriving DecidableEq

/-- The `for component, result in results.items()` loop shared by
`_calculate_health` and `_calculate_security_score`: skip the entry named
`skip`, subtract 25 and extend issues on a critical status, subtract 10 and
extend issues on a warning status, leave the accumulator unchanged
otherwise. -/
def healthFoldAux (skip : String) : List CatStatus → Int × List String → Int × List String
  | [], acc => acc
  | it :: rest, acc =>
    healthFoldAux skip rest
      (if it.1 = skip then acc
       else if it.2.1 = "critical" then (acc.1 - 25, acc.2 ++ it.2.2)
       else if it.2.1 = "warning" then (acc.1 - 10, acc.2 ++ it.2.2)
       else acc)

/-- `PerformanceAnalyzer._calculate_health` (performance.py lines 189-215)
and the textually identical `ResourceAnalyzer._calculate_health`
(resources.py lines 208-234): score starts at 100, default status
'healthy', entries keyed 'health' are skipped. -/
def calculate_health (items : List CatStatus) : Health :=
  let r := healthFoldAux "health" items (100, [])
  { status := if r.1 ≤ 50 then "critical" else if r.1 ≤ 75 then "warning" else "healthy"
  , score := r.1
  , issues := r.2 }

/-- `SecurityAnalyzer._calculate_security_score` (security.py lines
211-237): same subtraction loop, but the default status is 'secure' and the
skipped key is 'security_score'. -/
def calculate_security_score (items : List CatStatus) : Health :=
  let r := healthFoldAux "security_score" items (100, [])
  { status := if r.1 ≤ 50 then "critical" else if r.1 ≤ 75 then "warning" else "secure"
  , score := r.1
  , issues := r.2 }

/-! ## Performance analyzer -/

namespace PerformanceAnalyzer

/-- Result of `_analyze_cpu` (performance.py lines 78-94). -/
structure CpuResult where
  usage : ℚ
  status : String
  issues : List String
deriving DecidableEq

/-- Issue text of the CPU critical branch (performance.py line 89). -/
def cpu_critical_msg (u : ℚ) : String :=
  "CPU usage is critically high: " ++ toString u ++ "%"

/-- Issue text of the CPU warning branch (performance.py line 92). -/
def cpu_warning_msg (u : ℚ) : String :=
  "CPU usage is high: " ++ toString u ++ "%"

/-- `PerformanceAnalyzer._analyze_cpu` (performance.py lines 78-94). -/
def analyze_cpu (th : PerfThresholds) (cpu_metrics : CpuMetrics) : CpuResult :=
  let usage := cpu_metrics.usage.getD 0
  if usage ≥ th.cpu.critical then
    { usage := usage, status := "critical", issues := [cpu_critical_msg usage] }
  else if usage ≥ th.cpu.warning then
    { usage := usage, status := "warning", issues := [cpu_warning_msg usage] }
  else
    { usage := usage, status := "normal", issues := [] }

/-- Result of `_analyze_memory` (performance.py lines 96-114). -/
structure MemoryResult where
  usage : ℚ
  available : ℚ
  total : ℚ
  status : String
  issues : List String
deriving DecidableEq

/-- Issue text of the memory critical branch (performance.py line 109). -/
def memory_critical_msg (u : ℚ) : String :=
  "Memory usage is critically high: " ++ toString u ++ "%"

/-- Issue text of the memory warning branch (performance.py line 112). -/
def memory_warning_msg (u : ℚ) : String :=
  "Memory usage is high: " ++ toString u ++ "%"

/-- `PerformanceAnalyzer._analyze_memory` (performance.py lines 96-114). -/
def analyze_memory (th : PerfThresholds) (memory_metrics : MemoryMetrics) : MemoryResult :=
  let usage := memory_metrics.usage.getD 0
  let available := memory_metrics.available.getD 0
  let total := memory_metrics.total.getD 0
  if usage ≥ th.memory.critical then
    { usage := usage, available := available, total := total
    , status := "critical", issues := [memory_critical_msg usage] }
  else if usage ≥ th.memory.warning then
    { usage := usage, available := available, total := total
    , status := "warning", issues := [memory_warning_msg usage] }
  else
    { usage := usage, available := available, total := total
    , status := "normal", issues := [] }

/-- Result of `_analyze_disk` (performance.py lines 116-134). -/
structure DiskResult where
  usage : ℚ
  free : ℚ
  total : ℚ
  status : String
  issues : List String
deriving DecidableEq

/-- Issue text of the disk critical branch (performance.py line 129). -/
def disk_critical_msg (u : ℚ) : String :=
  "Disk usage is critically high: " ++ toString u ++ "%"

/-- Issue text of the disk warning branch (performance.py line 132). -/
def disk_warning_msg (u : ℚ) : String :=
  "Disk usage is high: " ++ toString u ++ "%"

/-- `PerformanceAnalyzer._analyze_disk` (performance.py lines 116-134). -/
def analyze_disk (th : PerfThresholds) (disk_metrics : DiskMetrics) : DiskResult :=
  let usage := disk_metrics.usage.getD 0
  let free := disk_metrics.free.getD 0
  let total := disk_metrics.total.getD 0
  if usage ≥ th.disk.critical then
    { usage := usage, free := free, total := total
    , status := "critical", issues := [disk_critical_msg usage] }
  else if usage ≥ th.disk.warning then
    { usage := usage, free := free, total := total
    , status := "warning", issues := [disk_warning_msg usage] }
  else
    { usage := usage, free := free, total := total
    , status := "normal", issues := [] }

/-- Result of `_analyze_network` (performance.py lines 136-150): raw
counters passed through, status fixed at 'normal'. -/
structure NetworkResult where
  bytes_sent : ℚ
  bytes_recv : ℚ
  packets_sent : ℚ
  packets_recv : ℚ
  status : String
  issues : List String
deriving DecidableEq

/-- `PerformanceAnalyzer._analyze_network` (performance.py lines 136-150). -/
def analyze_network (network_metrics : NetworkMetrics) : NetworkResult :=
  { bytes_sent := network_metrics.bytes_sent.getD 0
  , bytes_recv := network_metrics.bytes_recv.getD 0
  , packets_sent := network_metrics.packets_sent.getD 0
  , packets_recv := network_metrics.packets_recv.getD 0
  , status := "normal"
  , issues := [] }

/-- One entry of the `high_cpu` list (performance.py lines 165-169). -/
structure HighCpuEntry where
  pid : Option Nat
  name : Option String
  cpu_percent : Option ℚ
deriving DecidableEq

/-- One entry of the `high_memory` list (performance.py lines 172-176). -/
structure HighMemoryEntry where
  pid : Option Nat
  name : Option String
  memory_percent : Option ℚ
deriving DecidableEq

/-- Result of `_analyze_processes` (performance.py lines 152-187). -/
structure ProcessesResult where
  total : Nat
  high_cpu : List HighCpuEntry
  high_memory : List HighMemoryEntry
  status : String
  issues : List String
deriving DecidableEq

/-- `PerformanceAnalyzer._analyze_processes` (performance.py lines
152-187): fixed cutoffs cpu_percent > 50 and memory_percent > 5; Warning
when either subset has more than 5 entries. -/
def analyze_processes (processes : List ProcessMetrics) : ProcessesResult :=
  let high_cpu := (processes.filter (fun p => p.cpu_percent.getD 0 > 50)).map
    (fun p => ({ pid := p.pid, name := p.name, cpu_percent := p.cpu_percent } : HighCpuEntry))
  let high_memory := (processes.filter (fun p => p.memory_percent.getD 0 > 5)).map
    (fun p => ({ pid := p.pid, name := p.name, memory_percent := p.memory_percent } : HighMemoryEntry))
  let cpu_issue : List String :=
    if high_cpu.length > 5 then
      ["High number of CPU-intensive processes: " ++ toString high_cpu.length]
    else []
  let memory_issue : List String :=
    if high_memory.length > 5 then
      ["High number of memory-intensive processes: " ++ toString high_memory.length]
    else []
  { total := processes.length
  , high_cpu := high_cpu
  , high_memory := high_memory
  , status := if high_cpu.length > 5 ∨ high_memory.length > 5 then "warning" else "normal"
  , issues := cpu_issue ++ memory_issue }

/-- The dict returned by `PerformanceAnalyzer.analyze` (performance.py
lines 55-76). -/
structure Analysis where
  cpu : CpuResult
  memory : MemoryResult
  disk : DiskResult
  network : NetworkResult
  processes : ProcessesResult
  health : Health
deriving DecidableEq

/-- Keys of the dict returned by `PerformanceAnalyzer.analyze`, in
insertion order (performance.py lines 65-74). -/
def analyze_keys : List String :=
  ["cpu", "memory", "disk", "network", "processes", "health"]

/-- `PerformanceAnalyzer.analyze` (performance.py lines 55-76): run the
five category evaluators on the corresponding snapshot entries (missing
entries default to empty), then aggregate with `_calculate_health`. -/
def analyze (th : PerfThresholds) (metrics : MetricsSnapshot) : Analysis :=
  let cpu := analyze_cpu th (metrics.cpu.getD {})
  let memory := analyze_memory th (metrics.memory.getD {})
  let disk := analyze_disk th (metrics.disk.getD {})
  let network := analyze_network (metrics.network.getD {})
  let processes := analyze_processes (metrics.processes.getD [])
  { cpu := cpu, memory := memory, disk := disk, network := network
  , processes := processes
  , health := calculate_health
      [ ("cpu", cpu.status, cpu.issues)
      , ("memory", memory.status, memory.issues)
      , ("disk", disk.status, disk.issues)
      , ("network", network.status, network.issues)
      , ("processes", processes.status, processes.issues) ] }

end PerformanceAnalyzer

/-! ## Security analyzer -/

namespace SecurityAnalyzer

/-- The `self.checks` dict (security.py lines 32-39). -/
structure SecurityChecks where
  open_ports : Bool
  running_services : Bool
  system_updates : Bool
  firewall_status : Bool
  antivirus_status : Bool
  ssl_certificates : Bool
deriving DecidableEq

/-- The initial all-enabled checks dict (security.py lines 32-39). -/
def initialChecks : SecurityChecks :=
  { open_ports := true, running_services := true, system_updates := true
  , firewall_status := true, antivirus_status := true, ssl_certificates := true }

/-- One iteration of the `for check in config_checks` loop (security.py
lines 46-48): `if check in checks: checks[check] = True`. -/
def setCheck (c : SecurityChecks) (check : String) : SecurityChecks :=
  if check = "open_ports" then { c with open_ports := true }
  else if check = "running_services" then { c with running_services := true }
  else if check = "system_updates" then { c with system_updates := true }
  else if check = "firewall_status" then { c with firewall_status := true }
  else if check = "antivirus_status" then { c with antivirus_status := true }
  else if check = "ssl_certificates" then { c with ssl_certificates := true }
  else c

/-- `SecurityAnalyzer._load_security_checks` (security.py lines 30-50):
start from the all-enabled dict and fold the configured
`analysis.security.checks` list over it. -/
def load_security_checks (config_checks : List String) : SecurityChecks :=
  config_checks.foldl setCheck initialChecks

/-- The analyzer instance state relevant to analysis: `self.checks`
(security.py line 28). -/
structure State where
  checks : SecurityChecks
deriving DecidableEq

/-- `SecurityAnalyzer.__init__` (security.py lines 20-28). -/
def init (config_checks : List String) : State :=
  { checks := load_security_checks config_checks }

/-- One entry of the ports result's `open` list (security.py lines
97-101). -/
structure OpenPort where
  port : Nat
  service : String
  state : String
deriving DecidableEq

/-- Result of `_analyze_ports` (security.py lines 76-107). -/
structure PortsResult where
  total : Nat
  «open» : List OpenPort
  status : String
  issues : List String
deriving DecidableEq

/-- The fixed vulnerable-port dict (security.py lines 86-92), rendered as
the lookup function of the Python dict literal
`{21: FTP, 22: SSH, 23: Telnet, 25: SMTP, 3389: RDP}`. -/
def vulnerable_ports (n : Nat) : Option String :=
  if n = 21 then some "FTP"
  else if n = 22 then some "SSH"
  else if n = 23 then some "Telnet"
  else if n = 25 then some "SMTP"
  else if n = 3389 then some "RDP"
  else none

/-- One iteration of the ports loop (security.py lines 94-101): a port
entry is flagged when its `port` number is a key of `vulnerable_ports`;
the `state` is only copied into the flagged entry, never tested. -/
def checkPort (p : PortEntry) : Option OpenPort :=
  match p.port with
  | none => none
  | some n =>
    match vulnerable_ports n with
    | none => none
    | some svc => some { port := n, service := svc, state := p.state.getD "unknown" }

/-- `SecurityAnalyzer._analyze_ports` (security.py lines 76-107). -/
def analyze_ports (ports : List PortEntry) : PortsResult :=
  let flagged := ports.filterMap checkPort
  { total := ports.length
  , «open» := flagged
  , status := if flagged.isEmpty then "normal" else "warning"
  , issues :=
      if flagged.isEmpty then []
      else ["Found " ++ toString flagged.length ++ " potentially vulnerable ports open"] }

/-- One entry of the services result's `vulnerable` list (security.py
lines 130-133). -/
structure VulnerableService where
  name : String
  status : String
deriving DecidableEq

/-- Result of `_analyze_services` (security.py lines 109-139). -/
structure ServicesResult where
  total : Nat
  vulnerable : List VulnerableService
  status : String
  issues : List String
deriving DecidableEq

/-- The fixed vulnerable-service name list (security.py lines 119-125). -/
def vulnerable_services : List String :=
  ["telnet", "ftp", "rsh", "rlogin", "rexec"]

/-- ASCII lowercasing of one character, as Python `str.lower()` acts on the
ASCII service names involved here. -/
def lowerChar (c : Char) : Char :=
  if 65 ≤ c.toNat ∧ c.toNat ≤ 90 then Char.ofNat (c.toNat + 32) else c

/-- Python `str.lower()` on an ASCII string: lowercase every character. -/
def pyLower (s : String) : String :=
  String.mk (s.data.map lowerChar)

/-- One iteration of the services loop (security.py lines 127-133): flag a
service whose lowercased name is in `vulnerable_services`. -/
def checkService (s : ServiceEntry) : Option VulnerableService :=
  let name := pyLower (s.name.getD "")
  if vulnerable_services.contains name then
    some { name := name, status := s.status.getD "unknown" }
  else none

/-- `SecurityAnalyzer._analyze_services` (security.py lines 109-139). -/
def analyze_services (services : List ServiceEntry) : ServicesResult :=
  let vulnerable := services.filterMap checkService
  { total := services.length
  , vulnerable := vulnerable
  , status := if vulnerable.isEmpty then "normal" else "warning"
  , issues :=
      if vulnerable.isEmpty then []
      else ["Found " ++ toString vulnerable.length ++ " potentially vulnerable services running"] }

/-- Result of `_analyze_updates` (security.py lines 141-154). -/
structure UpdatesResult where
  last_update : String
  updates_available : Int
  status : String
  issues : List String
deriving DecidableEq

/-- `SecurityAnalyzer._analyze_updates` (security.py lines 141-154). -/
def analyze_updates (updates : UpdatesMetrics) : UpdatesResult :=
  let available := updates.updates_available.getD 0
  { last_update := updates.last_update.getD "unknown"
  , updates_available := available
  , status := if available > 0 then "warning" else "normal"
  , issues :=
      if available > 0 then
        ["System has " ++ toString available ++ " updates available"]
      else [] }

/-- Result of `_analyze_firewall` (security.py lines 156-169). -/
structure FirewallResult where
  enabled : Bool
  rules : List String
  status : String
  issues : List String
deriving DecidableEq

/-- `SecurityAnalyzer._analyze_firewall` (security.py lines 156-169):
`enabled` defaults to False and a disabled firewall is Critical. -/
def analyze_firewall (firewall : FirewallMetrics) : FirewallResult :=
  let enabled := firewall.enabled.getD false
  { enabled := enabled
  , rules := firewall.rules.getD []
  , status := if enabled then "normal" else "critical"
  , issues := if enabled then [] else ["Firewall is not enabled"] }

/-- Result of `_analyze_antivirus` (security.py lines 171-184). -/
structure AntivirusResult where
  enabled : Bool
  last_scan : String
  status : String
  issues : List String
deriving DecidableEq

/-- `SecurityAnalyzer._analyze_antivirus` (security.py lines 171-184). -/
def analyze_antivirus (antivirus : AntivirusMetrics) : AntivirusResult :=
  let enabled := antivirus.enabled.getD false
  { enabled := enabled
  , last_scan := antivirus.last_scan.getD "unknown"
  , status := if enabled then "normal" else "critical"
  , issues := if enabled then [] else ["Antivirus is not enabled"] }

/-- Result of `_analyze_ssl` (security.py lines 186-209). -/
structure SslResult where
  total : Nat
  expired : List SslCert
  expiring_soon : List SslCert
  status : String
  issues : List String
deriving DecidableEq

/-- `SecurityAnalyzer._analyze_ssl` (security.py lines 186-209): each cert
goes to `expired` when `expired` is set, otherwise to `expiring_soon` when
`expiring_soon` is set; any expired cert gives Critical, else any
expiring-soon cert gives Warning. -/
def analyze_ssl (ssl_certs : List SslCert) : SslResult :=
  let expired := ssl_certs.filter (fun c => c.expired.getD false)
  let expiring_soon := ssl_certs.filter
    (fun c => !(c.expired.getD false) && c.expiring_soon.getD false)
  { total := ssl_certs.length
  , expired := expired
  , expiring_soon := expiring_soon
  , status :=
      if !expired.isEmpty then "critical"
      else if !expiring_soon.isEmpty then "warning"
      else "normal"
  , issues :=
      if !expired.isEmpty then
        ["Found " ++ toString expired.length ++ " expired SSL certificates"]
      else if !expiring_soon.isEmpty then
        ["Found " ++ toString expiring_soon.length ++ " SSL certificates expiring soon"]
      else [] }

/-- The dict returned by `SecurityAnalyzer.analyze` (security.py lines
52-74). -/
structure Analysis where
  ports : PortsResult
  services : ServicesResult
  updates : UpdatesResult
  firewall : FirewallResult
  antivirus : AntivirusResult
  ssl : SslResult
  security_score : Health
deriving DecidableEq

/-- Keys of the dict returned by `SecurityAnalyzer.analyze`, in insertion
order (security.py lines 62-72): the aggregate is stored under
'security_score'. -/
def analyze_keys : List String :=
  ["ports", "services", "updates", "firewall", "antivirus", "ssl", "security_score"]

/-- `SecurityAnalyzer.analyze` (security.py lines 52-74): run the six
security evaluators (never consulting `self.checks`), then aggregate with
`_calculate_security_score`. -/
def analyze (_self : State) (metrics : MetricsSnapshot) : Analysis :=
  let ports := analyze_ports (metrics.ports.getD [])
  let services := analyze_services (metrics.services.getD [])
  let updates := analyze_updates (metrics.updates.getD {})
  let firewall := analyze_firewall (metrics.firewall.getD {})
  let antivirus := analyze_antivirus (metrics.antivirus.getD {})
  let ssl := analyze_ssl (metrics.ssl.getD [])
  { ports := ports, services := services, updates := updates
  , firewall := firewall, antivirus := antivirus, ssl := ssl
  , security_score := calculate_security_score
      [ ("ports", ports.status, ports.issues)
      , ("services", services.status, services.issues)
      , ("updates", updates.status, updates.issues)
      , ("firewall", firewall.status, firewall.issues)
      , ("antivirus", antivirus.status, antivirus.issues)
      , ("ssl", ssl.status, ssl.issues) ] }

end SecurityAnalyzer

/-! ## Resource analyzer -/

namespace ResourceAnalyzer

/-- Result of `ResourceAnalyzer._analyze_disk` (resources.py lines
79-97). -/
structure DiskResult where
  usage : ℚ
  free : ℚ
  total : ℚ
  status : String
  issues : List String
deriving DecidableEq

/-- `ResourceAnalyzer._analyze_disk` (resources.py lines 79-97): textually
the same thresholds logic as the performance disk evaluator. -/
def analyze_disk (th : ResourceThresholds) (disk_metrics : DiskMetrics) : DiskResult :=
  let usage := disk_metrics.usage.getD 0
  let free := disk_metrics.free.getD 0
  let total := disk_metrics.total.getD 0
  if usage ≥ th.disk.critical then
    { usage := usage, free := free, total := total
    , status := "critical"
    , issues := ["Disk usage is critically high: " ++ toString usage ++ "%"] }
  else if usage ≥ th.disk.warning then
    { usage := usage, free := free, total := total
    , status := "warning"
    , issues := ["Disk usage is high: " ++ toString usage ++ "%"] }
  else
    { usage := usage, free := free, total := total
    , status := "normal", issues := [] }

/-- Result of `ResourceAnalyzer._analyze_memory` (resources.py lines
99-117). -/
structure MemoryResult where
  usage : ℚ
  available : ℚ
  total : ℚ
  status : String
  issues : List String
deriving DecidableEq

/-- `ResourceAnalyzer._analyze_memory` (resources.py lines 99-117). -/
def analyze_memory (th : ResourceThresholds) (memory_metrics : MemoryMetrics) : MemoryResult :=
  let usage := memory_metrics.usage.getD 0
  let available := memory_metrics.available.getD 0
  let total := memory_metrics.total.getD 0
  if usage ≥ th.memory.critical then
    { usage := usage, available := available, total := total
    , status := "critical"
    , issues := ["Memory usage is critically high: " ++ toString usage ++ "%"] }
  else if usage ≥ th.memory.warning then
    { usage := usage, available := available, total := total
    , status := "warning"
    , issues := ["Memory usage is high: " ++ toString usage ++ "%"] }
  else
    { usage := usage, available := available, total := total
    , status := "normal", issues := [] }

/-- Result of `ResourceAnalyzer._analyze_swap` (resources.py lines
119-137). -/
structure SwapResult where
  usage : ℚ
  free : ℚ
  total : ℚ
  status : String
  issues : List String
deriving DecidableEq

/-- `ResourceAnalyzer._analyze_swap` (resources.py lines 119-137). -/
def analyze_swap (th : ResourceThresholds) (swap_metrics : SwapMetrics) : SwapResult :=
  let usage := swap_metrics.usage.getD 0
  let free := swap_metrics.free.getD 0
  let total := swap_metrics.total.getD 0
  if usage ≥ th.swap.critical then
    { usage := usage, free := free, total := total
    , status := "critical"
    , issues := ["Swap usage is critically high: " ++ toString usage ++ "%"] }
  else if usage ≥ th.swap.warning then
    { usage := usage, free := free, total := total
    , status := "warning"
    , issues := ["Swap usage is high: " ++ toString usage ++ "%"] }
  else
    { usage := usage, free := free, total := total
    , status := "normal", issues := [] }

/-- Result of `_analyze_file_system` (resources.py lines 139-155). -/
structure FileSystemResult where
  total_files : ℚ
  total_dirs : ℚ
  largest_files : List FileEntry
  status : String
  issues : List String
deriving DecidableEq

/-- `ResourceAnalyzer._analyze_file_system` (resources.py lines 139-155):
Warning when any supplied file exceeds 1 GiB (1024 * 1024 * 1024 bytes). -/
def analyze_file_system (fs_metrics : FileSystemMetrics) : FileSystemResult :=
  let largest_files := fs_metrics.largest_files.getD []
  let large_files := largest_files.filter (fun f => f.size.getD 0 > 1024 * 1024 * 1024)
  { total_files := fs_metrics.total_files.getD 0
  , total_dirs := fs_metrics.total_dirs.getD 0
  , largest_files := largest_files
  , status := if large_files.isEmpty then "normal" else "warning"
  , issues :=
      if large_files.isEmpty then []
      else ["Found " ++ toString large_files.length ++ " files larger than 1GB"] }

/-- One entry of the resource `zombie` list (resources.py lines 188-191). -/
structure ZombieEntry where
  pid : Option Nat
  name : Option String
deriving DecidableEq

/-- Result of `ResourceAnalyzer._analyze_processes` (resources.py lines
157-206). -/
structure ProcessesResult where
  total : Nat
  high_cpu : List PerformanceAnalyzer.HighCpuEntry
  high_memory : List PerformanceAnalyzer.HighMemoryEntry
  zombie : List ZombieEntry
  status : String
  issues : List String
deriving DecidableEq

/-- `ResourceAnalyzer._analyze_processes` (resources.py lines 157-206):
like the performance variant, plus Warning on any zombie-status process. -/
def analyze_processes (processes : List ProcessMetrics) : ProcessesResult :=
  let high_cpu := (processes.filter (fun p => p.cpu_percent.getD 0 > 50)).map
    (fun p => ({ pid := p.pid, name := p.name, cpu_percent := p.cpu_percent }
      : PerformanceAnalyzer.HighCpuEntry))
  let high_memory := (processes.filter (fun p => p.memory_percent.getD 0 > 5)).map
    (fun p => ({ pid := p.pid, name := p.name, memory_percent := p.memory_percent }
      : PerformanceAnalyzer.HighMemoryEntry))
  let zombie := (processes.filter (fun p => p.status.getD "" == "zombie")).map
    (fun p => ({ pid := p.pid, name := p.name } : ZombieEntry))
  let zombie_issue : List String :=
    if zombie.isEmpty then []
    else ["Found " ++ toString zombie.length ++ " zombie processes"]
  let cpu_issue : List String :=
    if high_cpu.length > 5 then
      ["High number of CPU-intensive processes: " ++ toString high_cpu.length]
    else []
  let memory_issue : List String :=
    if high_memory.length > 5 then
      ["High number of memory-intensive processes: " ++ toString high_memory.length]
    else []
  { total := processes.length
  , high_cpu := high_cpu
  , high_memory := high_memory
  , zombie := zombie
  , status :=
      if ¬zombie.isEmpty ∨ high_cpu.length > 5 ∨ high_memory.length > 5
      then "warning" else "normal"
  , issues := zombie_issue ++ cpu_issue ++ memory_issue }

/-- The dict returned by `ResourceAnalyzer.analyze` (resources.py lines
56-77). -/
structure Analysis where
  disk : DiskResult
  memory : MemoryResult
  swap : SwapResult
  file_system : FileSystemResult
  processes : ProcessesResult
  health : Health
deriving DecidableEq

/-- Keys of the dict returned by `ResourceAnalyzer.analyze`, in insertion
order (resources.py lines 66-75). -/
def analyze_keys : List String :=
  ["disk", "memory", "swap", "file_system", "processes", "health"]

/-- `ResourceAnalyzer.analyze` (resources.py lines 56-77). -/
def analyze (th : ResourceThresholds) (metrics : MetricsSnapshot) : Analysis :=
  let disk := analyze_disk th (metrics.disk.getD {})
  let memory := analyze_memory th (metrics.memory.getD {})
  let swap := analyze_swap th (metrics.swap.getD {})
  let file_system := analyze_file_system (metrics.file_system.getD {})
  let processes := analyze_processes (metrics.processes.getD [])
  { disk := disk, memory := memory, swap := swap
  , file_system := file_system, processes := processes
  , health := calculate_health
      [ ("disk", disk.status, disk.issues)
      , ("memory", memory.status, memory.issues)
      , ("swap", swap.status, swap.issues)
      , ("file_system", file_system.status, file_system.issues)
      , ("processes", processes.status, processes.issues) ] }

end ResourceAnalyzer

/-! ## Specification-side definitions

These render the spec's description of the properties, to be compared
against the source-derived definitions above. -/

/-- Spec description of a usage-percentage evaluator's outcome at usage `u`
against thresholds `{warning := w, critical := c}`: Critical iff `u ≥ c`,
Warning iff `w ≤ u < c`, Normal iff `u < w`, both boundaries inclusive, and
an issue is appended exactly when the status is non-Normal. -/
def usageSpecAt (w c u : ℚ) (status : String) (issues : List String) : Prop :=
  (status = "critical" ↔ c ≤ u) ∧
  (status = "warning" ↔ w ≤ u ∧ u < c) ∧
  (status = "normal" ↔ u < w) ∧
  (issues = [] ↔ status = "normal")

/-- Spec-side count of Critical category results. -/
def countCritical : List CatStatus → Int
  | [] => 0
  | it :: rest => (if it.2.1 = "critical" then 1 else 0) + countCritical rest

/-- Spec-side count of Warning category results. -/
def countWarning : List CatStatus → Int
  | [] => 0
  | it :: rest => (if it.2.1 = "warning" then 1 else 0) + countWarning rest

/-- Spec-side concatenation of the issues of all non-Normal category
results, in iteration order. -/
def issuesConcat : List CatStatus → List String
  | [] => []
  | it :: rest =>
    (if it.2.1 = "critical" ∨ it.2.1 = "warning" then it.2.2 else []) ++ issuesConcat rest

/-- The score deduction one category result contributes in the aggregation
loop: 25 for Critical, 10 for Warning, 0 otherwise or when the entry is the
skipped key. -/
def penaltyOf (skip : String) (it : CatStatus) : Int :=
  if it.1 = skip then 0
  else if it.2.1 = "critical" then 25
  else if it.2.1 = "warning" then 10
  else 0

/-- Total score deduction of a category-result list. -/
def penaltySum (skip : String) : List CatStatus → Int
  | [] => 0
  | it :: rest => penaltyOf skip it + penaltySum skip rest

/-- Spec-side fixed vulnerable port-number set `{21, 22, 23, 25, 3389}`. -/
def vulnerableNumbers : List Nat := [21, 22, 23, 25, 3389]

/-! ## Aggregator lemmas -/

lemma healthFoldAux_fst (skip : String) (items : List CatStatus) :
    ∀ (s : Int) (iss : List String),
      (healthFoldAux skip items (s, iss)).1 = s - penaltySum skip items := by
  induction items with
  | nil => intro s iss; simp [healthFoldAux, penaltySum]
  | cons it rest ih =>
    intro s iss
    simp only [healthFoldAux, penaltySum, penaltyOf]
    split_ifs with h1 h2 h3 <;> rw [ih] <;> ring

lemma penaltyOf_nonneg (skip : String) (it : CatStatus) : 0 ≤ penaltyOf skip it := by
  unfold penaltyOf
  split_ifs <;> norm_num

lemma penaltyOf_normal (skip n : String) (iss : List String) :
    penaltyOf skip (n, "normal", iss) = 0 := by
  unfold penaltyOf
  dsimp only
  split_ifs with h1 h2 h3
  · rfl
  · exact absurd h2 (by decide)
  · exact absurd h3 (by decide)
  · rfl

lemma penaltySum_append (skip : String) (l1 l2 : List CatStatus) :
    penaltySum skip (l1 ++ l2) = penaltySum skip l1 + penaltySum skip l2 := by
  induction l1 with
  | nil => simp [penaltySum]
  | cons it rest ih => simp [penaltySum, ih]; ring

lemma healthFoldAux_eq (skip : String) (items : List CatStatus) :
    ∀ (s : Int) (iss : List String),
      (∀ it ∈ items, it.1 ≠ skip) →
      healthFoldAux skip items (s, iss) =
        (s - 25 * countCritical items - 10 * countWarning items, iss ++ issuesConcat items) := by
  induction items with
  | nil =>
    intro s iss _
    simp [healthFoldAux, countCritical, countWarning, issuesConcat]
  | cons it rest ih =>
    intro s iss h
    have hskip : it.1 ≠ skip := h it (List.mem_cons_self it rest)
    have hrest : ∀ x ∈ rest, x.1 ≠ skip := fun x hx => h x (List.mem_cons_of_mem _ hx)
    by_cases hc : it.2.1 = "critical"
    · have hw : it.2.1 ≠ "warning" := by rw [hc]; decide
      simp only [healthFoldAux, if_neg hskip, if_pos hc]
      rw [ih _ _ hrest]
      simp only [countCritical, countWarning, issuesConcat, if_pos hc, if_neg hw,
        if_pos (Or.inl hc), Prod.mk.injEq]
      exact ⟨by ring, by rw [List.append_assoc]⟩
    · by_cases hw : it.2.1 = "warning"
      · simp only [healthFoldAux, if_neg hskip, if_neg hc, if_pos hw]
        rw [ih _ _ hrest]
        simp only [countCritical, countWarning, issuesConcat, if_neg hc, if_pos hw,
          if_pos (Or.inr hw), Prod.mk.injEq]
        exact ⟨by ring, by rw [List.append_assoc]⟩
      · have hnc : ¬(it.2.1 = "critical" ∨ it.2.1 = "warning") := by
          intro hcase
          rcases hcase with hx | hx
          · exact hc hx
          · exact hw hx
        simp only [healthFoldAux, if_neg hskip, if_neg hc, if_neg hw]
        rw [ih _ _ hrest]
        simp only [countCritical, countWarning, issuesConcat, if_neg hc, if_neg hw,
          if_neg hnc, Prod.mk.injEq]
        exact ⟨by ring, by simp⟩

lemma healthFoldAux_all_normal (skip : String) (items : List CatStatus)
    (h : ∀ it ∈ items, it.2.1 = "normal") :
    ∀ acc, healthFoldAux skip items acc = acc := by
  induction items with
  | nil => intro acc; rfl
  | cons it rest ih =>
    intro acc
    have hit : it.2.1 = "normal" := h it (List.mem_cons_self it rest)
    have hrest : ∀ x ∈ rest, x.2.1 = "normal" := fun x hx => h x (List.mem_cons_of_mem _ hx)
    have hc : it.2.1 ≠ "critical" := by rw [hit]; decide
    have hw : it.2.1 ≠ "warning" := by rw [hit]; decide
    simp only [healthFoldAux, if_neg hc, if_neg hw, ite_self]
    exact ih hrest acc

/-- The final-status rule shared by both aggregators, characterised as an
iff for each of the three outcome strings. -/
lemma final_status_spec (r : Int) (ok : String) (hok : ok = "healthy" ∨ ok = "secure") :
    ((if r ≤ 50 then "critical" else if r ≤ 75 then "warning" else ok) = "critical" ↔ r ≤ 50) ∧
    ((if r ≤ 50 then "critical" else if r ≤ 75 then "warning" else ok) = "warning" ↔ 50 < r ∧ r ≤ 75) ∧
    ((if r ≤ 50 then "critical" else if r ≤ 75 then "warning" else ok) = ok ↔ 75 < r) := by
  have hne1 : ok ≠ "critical" := by rcases hok with h | h <;> rw [h] <;> decide
  have hne2 : ok ≠ "warning" := by rcases hok with h | h <;> rw [h] <;> decide
  split_ifs with h1 h2
  · refine ⟨⟨fun _ => h1, fun _ => rfl⟩, ?_, ?_⟩
    · constructor
      · intro hh; exact absurd hh (by decide)
      · intro hh; omega
    · constructor
      · intro hh; exact absurd hh.symm hne1
      · intro hh; omega
  · refine ⟨?_, ⟨fun _ => ⟨by omega, h2⟩, fun _ => rfl⟩, ?_⟩
    · constructor
      · intro hh; exact absurd hh (by decide)
      · intro hh; omega
    · constructor
      · intro hh; exact absurd hh.symm hne2
      · intro hh; omega
  · refine ⟨?_, ?_, ⟨fun _ => by omega, fun _ => rfl⟩⟩
    · constructor
      · intro hh; exact absurd hh hne1
      · intro hh; omega
    · constructor
      · intro hh; exact absurd hh hne2
      · intro hh; omega

/-! ## Usage-evaluator classification -/

lemma usage_ifchain_spec (w c u : ℚ) (hwc : w ≤ c) (mc mw : String) :
    usageSpecAt w c u
      (if u ≥ c then "critical" else if u ≥ w then "warning" else "normal")
      (if u ≥ c then [mc] else if u ≥ w then [mw] else []) := by
  unfold usageSpecAt
  split_ifs with h1 h2
  · exact ⟨⟨fun _ => h1, fun _ => rfl⟩,
      ⟨fun hh => absurd hh (by decide), fun hh => absurd hh.2 (not_lt.mpr h1)⟩,
      ⟨fun hh => absurd hh (by decide), fun hh => absurd hh (not_lt.mpr (le_trans hwc h1))⟩,
      ⟨fun hh => absurd hh (by simp), fun hh => absurd hh (by decide)⟩⟩
  · exact ⟨⟨fun hh => absurd hh (by decide), fun hh => absurd hh h1⟩,
      ⟨fun _ => ⟨h2, not_le.mp h1⟩, fun _ => rfl⟩,
      ⟨fun hh => absurd hh (by decide), fun hh => absurd hh (not_lt.mpr h2)⟩,
      ⟨fun hh => absurd hh (by simp), fun hh => absurd hh (by decide)⟩⟩
  · exact ⟨⟨fun hh => absurd hh (by decide), fun hh => absurd hh h1⟩,
      ⟨fun hh => absurd hh (by decide), fun hh => absurd hh.1 h2⟩,
      ⟨fun _ => not_le.mp h2, fun _ => rfl⟩,
      ⟨fun _ => rfl, fun _ => rfl⟩⟩

lemma analyze_cpu_usageSpec (th : PerfThresholds) (u : ℚ)
    (h : th.cpu.warning ≤ th.cpu.critical) :
    usageSpecAt th.cpu.warning th.cpu.critical u
      (PerformanceAnalyzer.analyze_cpu th { usage := some u }).status
      (PerformanceAnalyzer.analyze_cpu th { usage := some u }).issues := by
  have hs : (PerformanceAnalyzer.analyze_cpu th { usage := some u }).status =
      (if u ≥ th.cpu.critical then "critical"
       else if u ≥ th.cpu.warning then "warning" else "normal") := by
    simp only [PerformanceAnalyzer.analyze_cpu, Option.getD_some]
    split_ifs <;> rfl
  have hi : (PerformanceAnalyzer.analyze_cpu th { usage := some u }).issues =
      (if u ≥ th.cpu.critical then [PerformanceAnalyzer.cpu_critical_msg u]
       else if u ≥ th.cpu.warning then [PerformanceAnalyzer.cpu_warning_msg u] else []) := by
    simp only [PerformanceAnalyzer.analyze_cpu, Option.getD_some]
    split_ifs <;> rfl
  rw [hs, hi]
  exact usage_ifchain_spec _ _ _ h _ _

lemma analyze_memory_usageSpec (th : PerfThresholds) (u : ℚ)
    (h : th.memory.warning ≤ th.memory.critical) :
    usageSpecAt th.memory.warning th.memory.critical u
      (PerformanceAnalyzer.analyze_memory th { usage := some u }).status
      (PerformanceAnalyzer.analyze_memory th { usage := some u }).issues := by
  have hs : (PerformanceAnalyzer.analyze_memory th { usage := some u }).status =
      (if u ≥ th.memory.critical then "critical"
       else if u ≥ th.memory.warning then "warning" else "normal") := by
    simp only [PerformanceAnalyzer.analyze_memory, Option.getD_some]
    split_ifs <;> rfl
  have hi : (PerformanceAnalyzer.analyze_memory th { usage := some u }).issues =
      (if u ≥ th.memory.critical then [PerformanceAnalyzer.memory_critical_msg u]
       else if u ≥ th.memory.warning then [PerformanceAnalyzer.memory_warning_msg u] else []) := by
    simp only [PerformanceAnalyzer.analyze_memory, Option.getD_some]
    split_ifs <;> rfl
  rw [hs, hi]
  exact usage_ifchain_spec _ _ _ h _ _

lemma analyze_disk_usageSpec (th : PerfThresholds) (u : ℚ)
    (h : th.disk.warning ≤ th.disk.critical) :
    usageSpecAt th.disk.warning th.disk.critical u
      (PerformanceAnalyzer.analyze_disk th { usage := some u }).status
      (PerformanceAnalyzer.analyze_disk th { usage := some u }).issues := by
  have hs : (PerformanceAnalyzer.analyze_disk th { usage := some u }).status =
      (if u ≥ th.disk.critical then "critical"
       else if u ≥ th.disk.warning then "warning" else "normal") := by
    simp only [PerformanceAnalyzer.analyze_disk, Option.getD_some]
    split_ifs <;> rfl
  have hi : (PerformanceAnalyzer.analyze_disk th { usage := some u }).issues =
      (if u ≥ th.disk.critical then [PerformanceAnalyzer.disk_critical_msg u]
       else if u ≥ th.disk.warning then [PerformanceAnalyzer.disk_warning_msg u] else []) := by
    simp only [PerformanceAnalyzer.analyze_disk, Option.getD_some]
    split_ifs <;> rfl
  rw [hs, hi]
  exact usage_ifchain_spec _ _ _ h _ _

lemma resource_disk_usageSpec (th : ResourceThresholds) (u : ℚ)
    (h : th.disk.warning ≤ th.disk.critical) :
    usageSpecAt th.disk.warning th.disk.critical u
      (ResourceAnalyzer.analyze_disk th { usage := some u }).status
      (ResourceAnalyzer.analyze_disk th { usage := some u }).issues := by
  have hs : (ResourceAnalyzer.analyze_disk th { usage := some u }).status =
      (if u ≥ th.disk.critical then "critical"
       else if u ≥ th.disk.warning then "warning" else "normal") := by
    simp only [ResourceAnalyzer.analyze_disk, Option.getD_some]
    split_ifs <;> rfl
  have hi : (ResourceAnalyzer.analyze_disk th { usage := some u }).issues =
      (if u ≥ th.disk.critical then ["Disk usage is critically high: " ++ toString u ++ "%"]
       else if u ≥ th.disk.warning then ["Disk usage is high: " ++ toString u ++ "%"] else []) := by
    simp only [ResourceAnalyzer.analyze_disk, Option.getD_some]
    split_ifs <;> rfl
  rw [hs, hi]
  exact usage_ifchain_spec _ _ _ h _ _

lemma resource_memory_usageSpec (th : ResourceThresholds) (u : ℚ)
    (h : th.memory.warning ≤ th.memory.critical) :
    usageSpecAt th.memory.warning th.memory.critical u
      (ResourceAnalyzer.analyze_memory th { usage := some u }).status
      (ResourceAnalyzer.analyze_memory th { usage := some u }).issues := by
  have hs : (ResourceAnalyzer.analyze_memory th { usage := some u }).status =
      (if u ≥ th.memory.critical then "critical"
       else if u ≥ th.memory.warning then "warning" else "normal") := by
    simp only [ResourceAnalyzer.analyze_memory, Option.getD_some]
    split_ifs <;> rfl
  have hi : (ResourceAnalyzer.analyze_memory th { usage := some u }).issues =
      (if u ≥ th.memory.critical then ["Memory usage is critically high: " ++ toString u ++ "%"]
       else if u ≥ th.memory.warning then ["Memory usage is high: " ++ toString u ++ "%"] else []) := by
    simp only [ResourceAnalyzer.analyze_memory, Option.getD_some]
    split_ifs <;> rfl
  rw [hs, hi]
  exact usage_ifchain_spec _ _ _ h _ _

lemma resource_swap_usageSpec (th : ResourceThresholds) (u : ℚ)
    (h : th.swap.warning ≤ th.swap.critical) :
    usageSpecAt th.swap.warning th.swap.critical u
      (ResourceAnalyzer.analyze_swap th { usage := some u }).status
      (ResourceAnalyzer.analyze_swap th { usage := some u }).issues := by
  have hs : (ResourceAnalyzer.analyze_swap th { usage := some u }).status =
      (if u ≥ th.swap.critical then "critical"
       else if u ≥ th.swap.warning then "warning" else "normal") := by
    simp only [ResourceAnalyzer.analyze_swap, Option.getD_some]
    split_ifs <;> rfl
  have hi : (ResourceAnalyzer.analyze_swap th { usage := some u }).issues =
      (if u ≥ th.swap.critical then ["Swap usage is critically high: " ++ toString u ++ "%"]
       else if u ≥ th.swap.warning then ["Swap usage is high: " ++ toString u ++ "%"] else []) := by
    simp only [ResourceAnalyzer.analyze_swap, Option.getD_some]
    split_ifs <;> rfl
  rw [hs, hi]
  exact usage_ifchain_spec _ _ _ h _ _

/-- Claim C1: for every usage-percentage evaluator (performance CPU,
memory, disk and resource disk, memory, swap) and every usage value `u`
evaluated against thresholds with `warning ≤ critical`, the result is
Critical iff `u ≥ critical`, Warning iff `warning ≤ u < critical`, Normal
iff `u < warning` (both boundaries inclusive), and an issue message is
appended exactly when the status is non-Normal. -/
theorem usage_evaluators_inclusive_threshold_classification
    (pt : PerfThresholds) (rt : ResourceThresholds) (u : ℚ)
    (h1 : pt.cpu.warning ≤ pt.cpu.critical)
    (h2 : pt.memory.warning ≤ pt.memory.critical)
    (h3 : pt.disk.warning ≤ pt.disk.critical)
    (h4 : rt.disk.warning ≤ rt.disk.critical)
    (h5 : rt.memory.warning ≤ rt.memory.critical)
    (h6 : rt.swap.warning ≤ rt.swap.critical) :
    usageSpecAt pt.cpu.warning pt.cpu.critical u
      (PerformanceAnalyzer.analyze_cpu pt { usage := some u }).status
      (PerformanceAnalyzer.analyze_cpu pt { usage := some u }).issues ∧
    usageSpecAt pt.memory.warning pt.memory.critical u
      (PerformanceAnalyzer.analyze_memory pt { usage := some u }).status
      (PerformanceAnalyzer.analyze_memory pt { usage := some u }).issues ∧
    usageSpecAt pt.disk.warning pt.disk.critical u
      (PerformanceAnalyzer.analyze_disk pt { usage := some u }).status
      (PerformanceAnalyzer.analyze_disk pt { usage := some u }).issues ∧
    usageSpecAt rt.disk.warning rt.disk.critical u
      (ResourceAnalyzer.analyze_disk rt { usage := some u }).status
      (ResourceAnalyzer.analyze_disk rt { usage := some u }).issues ∧
    usageSpecAt rt.memory.warning rt.memory.critical u
      (ResourceAnalyzer.analyze_memory rt { usage := some u }).status
      (ResourceAnalyzer.analyze_memory rt { usage := some u }).issues ∧
    usageSpecAt rt.swap.warning rt.swap.critical u
      (ResourceAnalyzer.analyze_swap rt { usage := some u }).status
      (ResourceAnalyzer.analyze_swap rt { usage := some u }).issues :=
  ⟨analyze_cpu_usageSpec pt u h1, analyze_memory_usageSpec pt u h2,
   analyze_disk_usageSpec pt u h3, resource_disk_usageSpec rt u h4,
   resource_memory_usageSpec rt u h5, resource_swap_usageSpec rt u h6⟩

/-- Witness for Claim C1: the theorem applied to the default thresholds at
the boundary usage 80, where the CPU evaluator reports Warning
(`u == warning` is inclusive). -/
theorem usage_evaluators_classification_witness :
    usageSpecAt default_performance_thresholds.cpu.warning
      default_performance_thresholds.cpu.critical 80
      (PerformanceAnalyzer.analyze_cpu default_performance_thresholds { usage := some 80 }).status
      (PerformanceAnalyzer.analyze_cpu default_performance_thresholds { usage := some 80 }).issues :=
  (usage_evaluators_inclusive_threshold_classification
    default_performance_thresholds default_resource_thresholds 80
    (by norm_num [default_performance_thresholds])
    (by norm_num [default_performance_thresholds])
    (by norm_num [default_performance_thresholds])
    (by norm_num [default_resource_thresholds])
    (by norm_num [default_resource_thresholds])
    (by norm_num [default_resource_thresholds])).1

/-! ## Aggregation claims -/

/-- Claim C2: the health aggregator starts from score 100, subtracts 25 and
appends the category's issues for each Critical result, subtracts 10 and
appends its issues for each Warning result, leaves Normal results
unchanged, and sets status Critical iff score ≤ 50, Warning iff
50 < score ≤ 75, Healthy otherwise; one Critical among Normals yields
{score 75, Warning} and two Criticals among Normals yield
{score 50, Critical}. -/
theorem calculate_health_algorithm (items : List CatStatus)
    (h : "health" ∉ items.map Prod.fst) :
    (calculate_health items).score =
      100 - 25 * countCritical items - 10 * countWarning items ∧
    (calculate_health items).issues = issuesConcat items ∧
    ((calculate_health items).status = "critical" ↔ (calculate_health items).score ≤ 50) ∧
    ((calculate_health items).status = "warning" ↔
      50 < (calculate_health items).score ∧ (calculate_health items).score ≤ 75) ∧
    ((calculate_health items).status = "healthy" ↔ 75 < (calculate_health items).score) ∧
    calculate_health
      [("cpu", "critical", []), ("memory", "normal", []), ("disk", "normal", []),
       ("network", "normal", []), ("processes", "normal", [])] =
      { status := "warning", score := 75, issues := [] } ∧
    calculate_health
      [("cpu", "critical", []), ("memory", "critical", []), ("disk", "normal", []),
       ("network", "normal", []), ("processes", "normal", [])] =
      { status := "critical", score := 50, issues := [] } := by
  have hmem : ∀ it ∈ items, it.1 ≠ "health" := by
    intro it hit heq
    exact h (List.mem_map.mpr ⟨it, hit, heq⟩)
  have hfold := healthFoldAux_eq "health" items 100 [] hmem
  have hsc : (calculate_health items).score = (healthFoldAux "health" items (100, [])).1 := rfl
  have his : (calculate_health items).issues = (healthFoldAux "health" items (100, [])).2 := rfl
  have hst : (calculate_health items).status =
      (if (calculate_health items).score ≤ 50 then "critical"
       else if (calculate_health items).score ≤ 75 then "warning" else "healthy") := rfl
  have hstat := final_status_spec ((calculate_health items).score) "healthy" (Or.inl rfl)
  rw [← hst] at hstat
  refine ⟨?_, ?_, hstat.1, hstat.2.1, hstat.2.2, by decide, by decide⟩
  · rw [hsc, hfold]
  · rw [his, hfold]
    simp

/-- Witness for Claim C2: the theorem applied to a concrete two-category
list (one Warning, one Critical), whose score evaluates to
100 - 25 - 10 = 65. -/
theorem calculate_health_algorithm_witness :
    (calculate_health [("cpu", "warning", ["w1"]), ("memory", "critical", ["c1"])]).score =
      100 - 25 * countCritical [("cpu", "warning", ["w1"]), ("memory", "critical", ["c1"])]
        - 10 * countWarning [("cpu", "warning", ["w1"]), ("memory", "critical", ["c1"])] :=
  (calculate_health_algorithm
    [("cpu", "warning", ["w1"]), ("memory", "critical", ["c1"])] (by decide)).1

/-- The six all-Normal security category results, as
`_calculate_security_score` sees them. -/
def allNormalSecurityCategories : List CatStatus :=
  [("ports", "normal", []), ("services", "normal", []), ("updates", "normal", []),
   ("firewall", "normal", []), ("antivirus", "normal", []), ("ssl", "normal", [])]

/-- Claim C3 counterexample: aggregating all-Normal category results in the
security domain yields status "secure", not "healthy" — the Healthy default
status is not shared by all three domains. -/
theorem security_all_normal_default_is_secure :
    allNormalSecurityCategories.all (fun it => it.2.1 == "normal") = true ∧
    calculate_security_score allNormalSecurityCategories =
      { status := "secure", score := 100, issues := [] } ∧
    (calculate_security_score allNormalSecurityCategories).status ≠ "healthy" := by
  decide

/-- Claim C3 (amended): aggregating all-Normal category results yields
score 100 and empty issues in every domain; the default status is
"healthy" for the performance and resource aggregator and "secure" for the
security aggregator. -/
theorem all_normal_aggregation_is_perfect (items : List CatStatus)
    (h : ∀ it ∈ items, it.2.1 = "normal") :
    calculate_health items = { status := "healthy", score := 100, issues := [] } ∧
    calculate_security_score items = { status := "secure", score := 100, issues := [] } := by
  have h1 := healthFoldAux_all_normal "health" items h (100, [])
  have h2 := healthFoldAux_all_normal "security_score" items h (100, [])
  constructor
  · unfold calculate_health
    rw [h1]
    norm_num
  · unfold calculate_security_score
    rw [h2]
    norm_num

/-- Witness for Claim C3 (amended): the theorem applied to the all-Normal
performance category list. -/
theorem all_normal_aggregation_witness :
    calculate_health
      [("cpu", "normal", []), ("memory", "normal", []), ("disk", "normal", []),
       ("network", "normal", []), ("processes", "normal", [])] =
      { status := "healthy", score := 100, issues := [] } ∧
    calculate_security_score
      [("cpu", "normal", []), ("memory", "normal", []), ("disk", "normal", []),
       ("network", "normal", []), ("processes", "normal", [])] =
      { status := "secure", score := 100, issues := [] } :=
  all_normal_aggregation_is_perfect
    [("cpu", "normal", []), ("memory", "normal", []), ("disk", "normal", []),
     ("network", "normal", []), ("processes", "normal", [])] (by decide)

/-- Claim C10: the aggregated health score is monotonically non-increasing
in category severity — replacing one category's Normal result by a Warning
or Critical result, holding all other categories fixed, never increases the
score. -/
theorem health_score_monotone_in_severity
    (l1 l2 : List CatStatus) (n : String) (iss iss' : List String) (st' : String)
    (_h : st' = "warning" ∨ st' = "critical") :
    (calculate_health (l1 ++ (n, st', iss') :: l2)).score ≤
      (calculate_health (l1 ++ (n, "normal", iss) :: l2)).score := by
  have hs1 : (calculate_health (l1 ++ (n, st', iss') :: l2)).score =
      100 - penaltySum "health" (l1 ++ (n, st', iss') :: l2) := by
    have : (calculate_health (l1 ++ (n, st', iss') :: l2)).score =
        (healthFoldAux "health" (l1 ++ (n, st', iss') :: l2) (100, [])).1 := rfl
    rw [this, healthFoldAux_fst]
  have hs2 : (calculate_health (l1 ++ (n, "normal", iss) :: l2)).score =
      100 - penaltySum "health" (l1 ++ (n, "normal", iss) :: l2) := by
    have : (calculate_health (l1 ++ (n, "normal", iss) :: l2)).score =
        (healthFoldAux "health" (l1 ++ (n, "normal", iss) :: l2) (100, [])).1 := rfl
    rw [this, healthFoldAux_fst]
  rw [hs1, hs2, penaltySum_append, penaltySum_append]
  have e1 : penaltySum "health" ((n, st', iss') :: l2) =
      penaltyOf "health" (n, st', iss') + penaltySum "health" l2 := rfl
  have e2 : penaltySum "health" ((n, "normal", iss) :: l2) =
      penaltyOf "health" (n, "normal", iss) + penaltySum "health" l2 := rfl
  rw [e1, e2, penaltyOf_normal]
  have := penaltyOf_nonneg "health" (n, st', iss')
  omega

/-- Witness for Claim C10: the theorem applied at one category changed from
Normal to Critical; the score drops from 100 to 75. -/
theorem health_score_monotone_witness :
    (calculate_health [("cpu", "critical", ["CPU usage is critically high: 95%"])]).score ≤
      (calculate_health [("cpu", "normal", [])]).score :=
  health_score_monotone_in_severity [] [] "cpu" []
    ["CPU usage is critically high: 95%"] "critical" (Or.inr rfl)

/-! ## Analyzer shape, configuration independence, totality -/

/-- Claim C4 counterexample: the security analyzer's result dict has no
`health` key; its aggregate sits under the key `security_score` (last in
insertion order), so the aggregate is not stored under `health` for all
three domains. -/
theorem security_aggregate_not_under_health_key :
    "health" ∉ SecurityAnalyzer.analyze_keys ∧
    "security_score" ∈ SecurityAnalyzer.analyze_keys ∧
    SecurityAnalyzer.analyze_keys.getLast? = some "security_score" := by
  decide

/-- Claim C4 (amended): each domain analyzer returns the mapping from its
category names to CategoryResults plus the aggregated HealthResult; the
aggregate key is `health` for the performance and resource analyzers but
`security_score` for the security analyzer. -/
theorem analyzers_store_aggregate_under_domain_key
    (pt : PerfThresholds) (rt : ResourceThresholds) (st : SecurityAnalyzer.State)
    (m : MetricsSnapshot) :
    (PerformanceAnalyzer.analyze pt m).health =
      calculate_health
        [ ("cpu", (PerformanceAnalyzer.analyze pt m).cpu.status,
            (PerformanceAnalyzer.analyze pt m).cpu.issues)
        , ("memory", (PerformanceAnalyzer.analyze pt m).memory.status,
            (PerformanceAnalyzer.analyze pt m).memory.issues)
        , ("disk", (PerformanceAnalyzer.analyze pt m).disk.status,
            (PerformanceAnalyzer.analyze pt m).disk.issues)
        , ("network", (PerformanceAnalyzer.analyze pt m).network.status,
            (PerformanceAnalyzer.analyze pt m).network.issues)
        , ("processes", (PerformanceAnalyzer.analyze pt m).processes.status,
            (PerformanceAnalyzer.analyze pt m).processes.issues) ] ∧
    (ResourceAnalyzer.analyze rt m).health =
      calculate_health
        [ ("disk", (ResourceAnalyzer.analyze rt m).disk.status,
            (ResourceAnalyzer.analyze rt m).disk.issues)
        , ("memory", (ResourceAnalyzer.analyze rt m).memory.status,
            (ResourceAnalyzer.analyze rt m).memory.issues)
        , ("swap", (ResourceAnalyzer.analyze rt m).swap.status,
            (ResourceAnalyzer.analyze rt m).swap.issues)
        , ("file_system", (ResourceAnalyzer.analyze rt m).file_system.status,
            (ResourceAnalyzer.analyze rt m).file_system.issues)
        , ("processes", (ResourceAnalyzer.analyze rt m).processes.status,
            (ResourceAnalyzer.analyze rt m).processes.issues) ] ∧
    (SecurityAnalyzer.analyze st m).security_score =
      calculate_security_score
        [ ("ports", (SecurityAnalyzer.analyze st m).ports.status,
            (SecurityAnalyzer.analyze st m).ports.issues)
        , ("services", (SecurityAnalyzer.analyze st m).services.status,
            (SecurityAnalyzer.analyze st m).services.issues)
        , ("updates", (SecurityAnalyzer.analyze st m).updates.status,
            (SecurityAnalyzer.analyze st m).updates.issues)
        , ("firewall", (SecurityAnalyzer.analyze st m).firewall.status,
            (SecurityAnalyzer.analyze st m).firewall.issues)
        , ("antivirus", (SecurityAnalyzer.analyze st m).antivirus.status,
            (SecurityAnalyzer.analyze st m).antivirus.issues)
        , ("ssl", (SecurityAnalyzer.analyze st m).ssl.status,
            (SecurityAnalyzer.analyze st m).ssl.issues) ] ∧
    PerformanceAnalyzer.analyze_keys.getLast? = some "health" ∧
    ResourceAnalyzer.analyze_keys.getLast? = some "health" ∧
    SecurityAnalyzer.analyze_keys.getLast? = some "security_score" :=
  ⟨rfl, rfl, rfl, rfl, rfl, rfl⟩

/-- Claim C6: `_load_security_checks` always produces the all-enabled
checks dict (a configured check can only be re-enabled, never disabled),
and `analyze` never consults `self.checks`, so two analyzers built from any
two check configurations return identical results on every snapshot. -/
theorem security_analysis_independent_of_checks_config :
    (∀ config_checks : List String,
      SecurityAnalyzer.load_security_checks config_checks = SecurityAnalyzer.initialChecks) ∧
    (∀ (cfg1 cfg2 : List String) (m : MetricsSnapshot),
      SecurityAnalyzer.analyze (SecurityAnalyzer.init cfg1) m =
        SecurityAnalyzer.analyze (SecurityAnalyzer.init cfg2) m) := by
  have hset : ∀ s, SecurityAnalyzer.setCheck SecurityAnalyzer.initialChecks s =
      SecurityAnalyzer.initialChecks := by
    intro s
    unfold SecurityAnalyzer.setCheck
    split_ifs <;> rfl
  refine ⟨?_, fun _ _ _ => rfl⟩
  intro l
  unfold SecurityAnalyzer.load_security_checks
  induction l with
  | nil => rfl
  | cons a l ih =>
    rw [List.foldl_cons, hset]
    exact ih

/-- A snapshot with three Critical security categories (firewall,
antivirus, SSL) and three Warning ones (ports, services, updates). -/
def negativeScoreSnapshot : MetricsSnapshot :=
  { ports := some [{ port := some 22, state := some "open" }]
  , services := some [{ name := some "telnet", status := some "running" }]
  , updates := some { last_update := some "2020-01-01", updates_available := some 7 }
  , firewall := some { enabled := some false, rules := some [] }
  , antivirus := some { enabled := some false, last_scan := some "never" }
  , ssl := some [{ expired := some true, expiring_soon := some false }] }

/-- Claim C7: the aggregated score is not floored at 0 — on a snapshot
where firewall, antivirus and SSL are Critical and ports, services and
updates are Warning, the security score is 100 - 3*25 - 3*10 = -5 with
status "critical". -/
theorem security_score_unclamped_negative :
    (SecurityAnalyzer.analyze (SecurityAnalyzer.init [])
        negativeScoreSnapshot).security_score.score = -5 ∧
    (SecurityAnalyzer.analyze (SecurityAnalyzer.init [])
        negativeScoreSnapshot).security_score.status = "critical" ∧
    (SecurityAnalyzer.analyze (SecurityAnalyzer.init [])
        negativeScoreSnapshot).security_score.score < 0 := by
  decide

/-- Claim C8: each domain analyzer is a total function of the snapshot, and
a missing category key is analyzed exactly like an explicitly empty
mapping/list, with every extracted field defaulting to zero/empty instead
of failing. -/
theorem analyze_total_with_graceful_defaults
    (pt : PerfThresholds) (rt : ResourceThresholds) (st : SecurityAnalyzer.State)
    (m : MetricsSnapshot) :
    PerformanceAnalyzer.analyze pt m = PerformanceAnalyzer.analyze pt (fillDefaults m) ∧
    ResourceAnalyzer.analyze rt m = ResourceAnalyzer.analyze rt (fillDefaults m) ∧
    SecurityAnalyzer.analyze st m = SecurityAnalyzer.analyze st (fillDefaults m) ∧
    PerformanceAnalyzer.analyze_cpu pt {} =
      PerformanceAnalyzer.analyze_cpu pt { usage := some 0 } ∧
    PerformanceAnalyzer.analyze_memory pt {} =
      PerformanceAnalyzer.analyze_memory pt
        { usage := some 0, available := some 0, total := some 0 } ∧
    ResourceAnalyzer.analyze_swap rt {} =
      ResourceAnalyzer.analyze_swap rt { usage := some 0, free := some 0, total := some 0 } ∧
    SecurityAnalyzer.analyze_updates {} =
      SecurityAnalyzer.analyze_updates
        { last_update := some "unknown", updates_available := some 0 } ∧
    SecurityAnalyzer.analyze_firewall {} =
      SecurityAnalyzer.analyze_firewall { enabled := some false, rules := some [] } :=
  ⟨rfl, rfl, rfl, rfl, rfl, rfl, rfl, rfl⟩

/-! ## Ports evaluator claims -/

lemma vulnerable_ports_isSome (n : Nat) :
    (SecurityAnalyzer.vulnerable_ports n).isSome = vulnerableNumbers.contains n := by
  unfold SecurityAnalyzer.vulnerable_ports vulnerableNumbers
  split_ifs with h1 h2 h3 h4 h5
  · subst h1; decide
  · subst h2; decide
  · subst h3; decide
  · subst h4; decide
  · subst h5; decide
  · have hnm : n ∉ ([21, 22, 23, 25, 3389] : List Nat) := by
      simp [h1, h2, h3, h4, h5]
    simp [List.contains, hnm]

lemma checkPort_some {p : PortEntry} {o : SecurityAnalyzer.OpenPort}
    (h : SecurityAnalyzer.checkPort p = some o) :
    p.port = some o.port ∧ o.port ∈ vulnerableNumbers := by
  cases hp : p.port with
  | none => simp [SecurityAnalyzer.checkPort, hp] at h
  | some n =>
    cases hv : SecurityAnalyzer.vulnerable_ports n with
    | none => simp [SecurityAnalyzer.checkPort, hp, hv] at h
    | some svc =>
      simp only [SecurityAnalyzer.checkPort, hp, hv, Option.some.injEq] at h
      subst h
      have hc : vulnerableNumbers.contains n = true := by
        rw [← vulnerable_ports_isSome, hv]; rfl
      refine ⟨rfl, ?_⟩
      simpa [List.contains] using hc

lemma flagged_nonempty_iff (ports : List PortEntry) :
    ports.filterMap SecurityAnalyzer.checkPort ≠ [] ↔
      ∃ p ∈ ports, ∃ n, p.port = some n ∧ n ∈ vulnerableNumbers := by
  constructor
  · intro hne
    obtain ⟨o, ho⟩ := List.exists_mem_of_ne_nil _ hne
    obtain ⟨p, hp, hcp⟩ := List.mem_filterMap.mp ho
    obtain ⟨hport, hmem⟩ := checkPort_some hcp
    exact ⟨p, hp, o.port, hport, hmem⟩
  · rintro ⟨p, hp, n, hpn, hn⟩ hnil
    have hcontains : vulnerableNumbers.contains n = true := by
      simp [List.contains, hn]
    have hsome : (SecurityAnalyzer.vulnerable_ports n).isSome = true := by
      rw [vulnerable_ports_isSome]; exact hcontains
    obtain ⟨svc, hsvc⟩ := Option.isSome_iff_exists.mp hsome
    have hcp : SecurityAnalyzer.checkPort p =
        some { port := n, service := svc, state := p.state.getD "unknown" } := by
      simp only [SecurityAnalyzer.checkPort, hpn, hsvc]
    have hmem : ({ port := n, service := svc, state := p.state.getD "unknown" } :
        SecurityAnalyzer.OpenPort) ∈ ports.filterMap SecurityAnalyzer.checkPort :=
      List.mem_filterMap.mpr ⟨p, hp, hcp⟩
    rw [hnil] at hmem
    cases hmem

lemma flagged_ports_characterization (ports : List PortEntry) :
    (ports.filterMap SecurityAnalyzer.checkPort).map SecurityAnalyzer.OpenPort.port =
      (ports.filterMap PortEntry.port).filter (fun n => vulnerableNumbers.contains n) := by
  induction ports with
  | nil => rfl
  | cons p rest ih =>
    cases hp : p.port with
    | none =>
      have hcp : SecurityAnalyzer.checkPort p = none := by
        simp only [SecurityAnalyzer.checkPort, hp]
      rw [List.filterMap_cons_none hcp, List.filterMap_cons_none hp]
      exact ih
    | some n =>
      cases hv : SecurityAnalyzer.vulnerable_ports n with
      | none =>
        have hcp : SecurityAnalyzer.checkPort p = none := by
          simp only [SecurityAnalyzer.checkPort, hp, hv]
        have hc : vulnerableNumbers.contains n = false := by
          rw [← vulnerable_ports_isSome, hv]; rfl
        rw [List.filterMap_cons_none hcp, List.filterMap_cons_some hp,
          List.filter_cons_of_neg (by simpa [List.contains] using hc)]
        exact ih
      | some svc =>
        have hcp : SecurityAnalyzer.checkPort p =
            some { port := n, service := svc, state := p.state.getD "unknown" } := by
          simp only [SecurityAnalyzer.checkPort, hp, hv]
        have hc : vulnerableNumbers.contains n = true := by
          rw [← vulnerable_ports_isSome, hv]; rfl
        rw [List.filterMap_cons_some hcp, List.filterMap_cons_some hp,
          List.filter_cons_of_pos (by simpa [List.contains] using hc), List.map_cons, ih]

/-- Claim C5 counterexample: a port entry with a vulnerable number whose
state is "closed" (not "open") is still flagged by `_analyze_ports` and the
status becomes Warning — the evaluator never tests the port's state. -/
theorem closed_vulnerable_port_still_flagged :
    (SecurityAnalyzer.analyze_ports [{ port := some 22, state := some "closed" }]).«open» =
      [{ port := 22, service := "SSH", state := "closed" }] ∧
    (SecurityAnalyzer.analyze_ports [{ port := some 22, state := some "closed" }]).status =
      "warning" := by
  decide

/-- Claim C5 (amended): the ports evaluator flags exactly those supplied
ports whose number lies in the fixed vulnerable set {21, 22, 23, 25, 3389},
regardless of their state; the status is Warning iff at least one port is
flagged, Normal otherwise. The claim's concrete example
[{port 22, open}, {port 8080, open}] flags only port 22 with Warning. -/
theorem ports_flagged_by_number_regardless_of_state (ports : List PortEntry) :
    (SecurityAnalyzer.analyze_ports ports).«open».map SecurityAnalyzer.OpenPort.port =
      (ports.filterMap PortEntry.port).filter (fun n => vulnerableNumbers.contains n) ∧
    ((SecurityAnalyzer.analyze_ports ports).status = "warning" ↔
      ∃ p ∈ ports, ∃ n, p.port = some n ∧ n ∈ vulnerableNumbers) ∧
    ((SecurityAnalyzer.analyze_ports ports).status = "warning" ∨
      (SecurityAnalyzer.analyze_ports ports).status = "normal") ∧
    (SecurityAnalyzer.analyze_ports
      [{ port := some 22, state := some "open" },
       { port := some 8080, state := some "open" }]).«open».map
        SecurityAnalyzer.OpenPort.port = [22] ∧
    (SecurityAnalyzer.analyze_ports
      [{ port := some 22, state := some "open" },
       { port := some 8080, state := some "open" }]).status = "warning" := by
  have hopen : (SecurityAnalyzer.analyze_ports ports).«open» =
      ports.filterMap SecurityAnalyzer.checkPort := rfl
  have hstatus : (SecurityAnalyzer.analyze_ports ports).status =
      if (ports.filterMap SecurityAnalyzer.checkPort).isEmpty then "normal"
      else "warning" := rfl
  refine ⟨?_, ?_, ?_, by decide, by decide⟩
  · rw [hopen]
    exact flagged_ports_characterization ports
  · rw [hstatus]
    by_cases hcase : (ports.filterMap SecurityAnalyzer.checkPort).isEmpty = true
    · rw [if_pos hcase]
      have hnil : ports.filterMap SecurityAnalyzer.checkPort = [] := by
        simpa using hcase
      constructor
      · intro hh; exact absurd hh (by decide)
      · intro hex
        exact absurd hex (by
          intro hx
          exact (flagged_nonempty_iff ports).mpr hx hnil)
    · rw [if_neg hcase]
      have hne : ports.filterMap SecurityAnalyzer.checkPort ≠ [] := by
        simpa using hcase
      exact ⟨fun _ => (flagged_nonempty_iff ports).mp hne, fun _ => rfl⟩
  · rw [hstatus]
    by_cases hcase : (ports.filterMap SecurityAnalyzer.checkPort).isEmpty = true
    · rw [if_pos hcase]; exact Or.inr rfl
    · rw [if_neg hcase]; exact Or.inl rfl

/-! ## SSL evaluator claim -/

lemma ssl_status_eq (certs : List SslCert) :
    (SecurityAnalyzer.analyze_ssl certs).status =
      if !(certs.filter (fun c => c.expired.getD false)).isEmpty then "critical"
      else if !(certs.filter
          (fun c => !(c.expired.getD false) && c.expiring_soon.getD false)).isEmpty
        then "warning" else "normal" := rfl

/-- Claim C9: the SSL evaluator reports Critical iff some certificate is
expired (taking precedence over expiring-soon), Warning iff none is expired
but some is expiring soon, Normal otherwise; in particular
[{expired}, {expiring_soon}] yields Critical. -/
theorem ssl_expired_takes_precedence (certs : List SslCert) :
    ((SecurityAnalyzer.analyze_ssl certs).status = "critical" ↔
      ∃ c ∈ certs, c.expired.getD false = true) ∧
    ((SecurityAnalyzer.analyze_ssl certs).status = "warning" ↔
      (¬∃ c ∈ certs, c.expired.getD false = true) ∧
        ∃ c ∈ certs, c.expiring_soon.getD false = true) ∧
    ((SecurityAnalyzer.analyze_ssl certs).status = "normal" ↔
      (¬∃ c ∈ certs, c.expired.getD false = true) ∧
        ¬∃ c ∈ certs, c.expiring_soon.getD false = true) ∧
    (SecurityAnalyzer.analyze_ssl
      [{ expired := some true }, { expiring_soon := some true }]).status = "critical" := by
  have hstatus := ssl_status_eq certs
  by_cases hE : ∃ c ∈ certs, c.expired.getD false = true
  · have hEne : certs.filter (fun c => c.expired.getD false) ≠ [] := by
      simp only [ne_eq, List.filter_eq_nil_iff]
      push_neg
      obtain ⟨c, hc, hx⟩ := hE
      exact ⟨c, hc, by simp [hx]⟩
    rw [hstatus, if_pos (by simpa using hEne)]
    refine ⟨⟨fun _ => hE, fun _ => rfl⟩, ?_, ?_, by decide⟩
    · exact ⟨fun hh => absurd hh (by decide), fun hh => absurd hE hh.1⟩
    · exact ⟨fun hh => absurd hh (by decide), fun hh => absurd hE hh.1⟩
  · have hEnil : certs.filter (fun c => c.expired.getD false) = [] := by
      simp only [List.filter_eq_nil_iff]
      intro c hc hx
      exact hE ⟨c, hc, by simpa using hx⟩
    by_cases hS : ∃ c ∈ certs, c.expiring_soon.getD false = true
    · have hSne : certs.filter
          (fun c => !(c.expired.getD false) && c.expiring_soon.getD false) ≠ [] := by
        simp only [ne_eq, List.filter_eq_nil_iff]
        push_neg
        obtain ⟨c, hc, hx⟩ := hS
        have hcexp : c.expired.getD false = false := by
          cases hcc : c.expired.getD false
          · rfl
          · exact absurd ⟨c, hc, hcc⟩ hE
        exact ⟨c, hc, by simp [hx, hcexp]⟩
      rw [hstatus, if_neg (by simp [hEnil]), if_pos (by simpa using hSne)]
      refine ⟨?_, ⟨fun _ => ⟨hE, hS⟩, fun _ => rfl⟩, ?_, by decide⟩
      · exact ⟨fun hh => absurd hh (by decide), fun hh => absurd hh hE⟩
      · exact ⟨fun hh => absurd hh (by decide), fun hh => absurd hS hh.2⟩
    · have hSnil : certs.filter
          (fun c => !(c.expired.getD false) && c.expiring_soon.getD false) = [] := by
        simp only [List.filter_eq_nil_iff]
        intro c hc hx
        have : c.expiring_soon.getD false = true := by
          have hx' := hx
          simp only [Bool.and_eq_true] at hx'
          exact hx'.2
        exact hS ⟨c, hc, this⟩
      rw [hstatus, if_neg (by simp [hEnil]), if_neg (by simp [hSnil])]
      refine ⟨?_, ?_, ⟨fun _ => ⟨hE, hS⟩, fun _ => rfl⟩, by decide⟩
      · exact ⟨fun hh => absurd hh (by decide), fun hh => absurd hh hE⟩
      · exact ⟨fun hh => absurd hh (by decide), fun hh => absurd hh.2 hS⟩

end SystemAnalysis
